import Mathlib

/-!
Verification development for the PubPersister persistence tier.

Shallow embedding of the repository code:
* `StringUtils.py` (word selection and comma splitting),
* `ScraperListener.py` (dispatch, dedup, retry, dead-letter),
* the typed parsers (`ScholarCitationParser.py`, `ScholarAuthorParser.py`,
  `JournalParser.py`, `DblpAssocParser.py`, `ScholarPublicationParser.py`),
together with theorems settling the stated claims about them.

Database-side functions (PostgreSQL `word_similarity`, `jaro_winkler_similarity`,
`jaro_similarity`) are external to the repository: queries are embedded either as
oracle parameters (`sim : String → String → ℚ`) or as query-shape records.
-/

namespace PubPersister

/-! ### StringUtils.py -/

/-- Whitespace test backing the Python `str.strip()` / `str.split()` calls of
`StringUtils.py`, modelled for the ASCII whitespace characters. -/
def pySpace (c : Char) : Bool :=
  c = ' ' || c = '\t' || c = '\n' || c = '\r' || c = '\x0b' || c = '\x0c'

/-- Python `text.strip()` on a list of characters: drop leading and trailing
whitespace. -/
def pyStrip (s : List Char) : List Char :=
  ((s.dropWhile pySpace).reverse.dropWhile pySpace).reverse

/-- Helper for `pyWords`: the accumulator holds the current word reversed. -/
def pyWordsAux : List Char → List Char → List (List Char)
  | [], acc => if acc.isEmpty then [] else [acc.reverse]
  | c :: cs, acc =>
    if pySpace c then
      if acc.isEmpty then pyWordsAux cs [] else acc.reverse :: pyWordsAux cs []
    else
      pyWordsAux cs (c :: acc)

/-- Python `text.split()` (no separator argument): split on runs of whitespace,
discarding empty words. -/
def pyWords (s : List Char) : List (List Char) := pyWordsAux s []

/-- The scan of `StringUtils.first_after_fifth`: walk the word list keeping the
running start offset `current` of each word when the words are joined by single
spaces; on the word covering `fifth`, return it, or the following word when it
is shorter than 2 characters (`ws.head?` models `words[i+1] if i+1 < len(words)
else None`); after the loop return `None`. -/
def fafLoop (fifth : Nat) : List (List Char) → Nat → Option (List Char)
  | [], _ => none
  | w :: ws, current =>
    if current ≤ fifth ∧ fifth < current + w.length then
      if w.length < 2 then ws.head? else some w
    else
      fafLoop fifth ws (current + w.length + 1)

/-- `StringUtils.first_after_fifth(text)`: `None` on empty input, otherwise run
the scan with target position `len(text.strip()) / 5` starting at offset 0. -/
def first_after_fifth (text : List Char) : Option (List Char) :=
  if text.isEmpty then none
  else fafLoop ((pyStrip text).length / 5) (pyWords text) 0

/-- Claim-side notion for C9: index of the word covering character position `p`
when the words are joined by single spaces (`start` is the joined-string offset
of the head word). -/
def coverIdx (p : Nat) : List (List Char) → Nat → Option Nat
  | [], _ => none
  | w :: ws, start =>
    if start ≤ p ∧ p < start + w.length then some 0
    else (coverIdx p ws (start + w.length + 1)).map (· + 1)

/-- The exception raised by `StringUtils.process_string`. -/
inductive StrException where
  | semicolonFound
deriving DecidableEq

/-- `StringUtils.process_string(input_string)`: raise `SemicolonFoundException`
when the input contains a semicolon, otherwise return the comma split. -/
def process_string (input : List Char) : Except StrException (List (List Char)) :=
  if ';' ∈ input then .error .semicolonFound
  else .ok (input.splitOn ',')

/-! ### Shapes of the publication-by-title lookups

The similarity operators (`jaro_winkler_similarity`, `word_similarity`, ...)
are PostgreSQL-side functions external to the repository; what the repository
code determines is the *shape* of each query it builds.  The records below are
read off the SQLAlchemy query expressions of the three parsers that locate a
`Publication` row by title. -/

/-- Matching operator used by a title lookup. -/
inductive SimFn where
  | jaroWinkler
  | jaro
  | wordSimilarity
  | exactEquality
deriving DecidableEq

/-- Cheap SQL prefilter applied before the similarity predicate. -/
inductive PrefilterKind where
  | likeContainsFirstAfterFifth
  | noPrefilter
deriving DecidableEq

/-- How the candidate row is selected from the filtered set. -/
inductive PickRule where
  | highestSimilarityFirst
  | firstRow
  | uniqueOrNone
deriving DecidableEq

/-- Whether the compared strings are truncated before comparison. -/
inductive TruncationRule where
  | noTruncation
  | bothToShorterLength
deriving DecidableEq

/-- Shape of a publication-by-title lookup query. -/
structure TitleLookupSpec where
  simFn : SimFn
  threshold : Option ℚ
  prefilterKind : PrefilterKind
  pick : PickRule
  lowerDbSide : Bool
  lowerProbeSide : Bool
  truncation : TruncationRule
deriving DecidableEq

/-- `PublicationAssociationProcessor._process_publication` (DblpAssocParser.py,
lines 50-58): `Publication.title LIKE %first_after_fifth(title)%` prefilter,
`jaro_winkler_similarity(Publication.title, title) >= 0.87`, ordered by the
similarity descending, first row.  The probe title is lowercased
(`pub_data.get("title", ...).lower()`); the database column is not. -/
def dblpPublicationTitleLookup : TitleLookupSpec :=
  { simFn := .jaroWinkler
    threshold := some (mkRat 87 100)
    prefilterKind := .likeContainsFirstAfterFifth
    pick := .highestSimilarityFirst
    lowerDbSide := false
    lowerProbeSide := true
    truncation := .noTruncation }

/-- `ScholarPublicationParser._process_publication` (ScholarPublicationParser.py,
lines 71-77): `Publication.title == title`, `one_or_none()`.  No similarity
function, no prefilter, no lowercasing on either side. -/
def scholarPublicationTitleLookup : TitleLookupSpec :=
  { simFn := .exactEquality
    threshold := none
    prefilterKind := .noPrefilter
    pick := .uniqueOrNone
    lowerDbSide := false
    lowerProbeSide := false
    truncation := .noTruncation }

/-- `ScholarAuthorParser._process_publications` (ScholarAuthorParser.py, lines
196-221): both sides lowercased and truncated to the shorter length,
`word_similarity(db_trunc, user_trunc) >= 0.85`, no prefilter, `first()`
without an ORDER BY. -/
def scholarAuthorPublicationsTitleLookup : TitleLookupSpec :=
  { simFn := .wordSimilarity
    threshold := some (mkRat 85 100)
    prefilterKind := .noPrefilter
    pick := .firstRow
    lowerDbSide := true
    lowerProbeSide := true
    truncation := .bothToShorterLength }

/-- The lookup shape claim C8 asserts for *every* publication-by-title lookup:
jaro-winkler at threshold 0.87 on the lowercased titles, prefiltered by
`LIKE %firstAfterFifth(title)%`, highest-scoring candidate above threshold.
Written from the claim text, for comparison with the shapes read off the
source. -/
def claimedPublicationTitleLookup : TitleLookupSpec :=
  { simFn := .jaroWinkler
    threshold := some (mkRat 87 100)
    prefilterKind := .likeContainsFirstAfterFifth
    pick := .highestSimilarityFirst
    lowerDbSide := true
    lowerProbeSide := true
    truncation := .noTruncation }

/-! ### ScraperListener.py — dispatch, dedup, retry, dead-letter

`ScraperListener.process_listened_message` is embedded as a function producing
the list of observable events of one call (lock operations, seen-set updates,
parser execution, sleeps, the dead-letter write) together with the final
seen-messages set.  The parser bodies themselves are abstracted by the
`outcome` oracle (`outcome a = none`: attempt `a` returns normally;
`outcome a = some err`: attempt `a` raises an exception rendered as `err`),
and `random.uniform(-0.2, 0.2)` by the `jitter` oracle.  The configuration
values `max_retries` and `delay_secs` come from `Context().get_config()`. -/

/-- One parsed message envelope (the fields of `dict_message` the dispatcher
reads).  `_id` is kept in its string form `str(dict_message[_id])`. -/
structure Envelope where
  class_id : Nat
  variant_id : Nat
  idStr : String
deriving DecidableEq

/-- `message_id = str(class_id) + str(variant_id) + str(_id)`
(ScraperListener.py, lines 34-38). -/
def message_id (e : Envelope) : String :=
  toString e.class_id ++ toString e.variant_id ++ e.idStr

/-- The `CLASS_ID` / `VARIANT_ID` constants live in the entity modules, which
are not under `src/` (only `GoogleScholarPublication.py` is, with
`CLASS_ID = 1010`, `VARIANT_ID = 50`); the dispatch model is therefore
parameterised over them. -/
structure RoutingIds where
  authorClass : Nat
  scholarAuthorVariant : Nat
  publicationClass : Nat
  scholarPublicationVariant : Nat
  conferenceClass : Nat
  conferenceVariant : Nat
  journalClass : Nat
  journalVariant : Nat
  citationClass : Nat
  citationVariant : Nat
deriving DecidableEq

/-- The six typed parsers the dispatcher can route to. -/
inductive Route where
  | scholarAuthor
  | scholarPublication
  | conference
  | journal
  | dblpAssoc
  | scholarCitation
deriving DecidableEq

/-- The `if/elif` routing chain of `process_listened_message` (lines 64-77);
`none` models the `logging.warning("Invalid message: ...")` fallthrough. -/
def routeOf (R : RoutingIds) (class_id variant_id : Nat) : Option Route :=
  if variant_id = R.scholarAuthorVariant ∧ class_id = R.authorClass then
    some .scholarAuthor
  else if variant_id = R.scholarPublicationVariant ∧ class_id = R.publicationClass then
    some .scholarPublication
  else if variant_id = R.conferenceVariant ∧ class_id = R.conferenceClass then
    some .conference
  else if variant_id = R.journalVariant ∧ class_id = R.journalClass then
    some .journal
  else if variant_id = 100 ∧ class_id = R.publicationClass then
    some .dblpAssoc
  else if variant_id = R.citationVariant ∧ class_id = R.citationClass then
    some .scholarCitation
  else
    none

/-- The configuration values read at the top of `process_listened_message`. -/
structure RetryConfig where
  max_retries : Nat
  delay_secs : ℚ
deriving DecidableEq

/-- Observable events of one `process_listened_message` call. -/
inductive DispatchEvent where
  | lockAcquire
  | seenRemove (id : String)
  | seenAdd (id : String)
  | lockRelease
  | parserRun (r : Route)
  | warnInvalid
  | sleepFor (t : ℚ)
  | deadLetter (key msg : String)
deriving DecidableEq

/-- The `while attempts < max_retries` loop of `process_listened_message`,
with `fuel = max_retries - attempts` making the recursion structural.  Each
iteration: under `message_lock`, drop `message_id` from `seen_messages` on a
retry, return early when it is still seen, otherwise add it; then run the
routed parser (outside the lock).  On an exception: at the last attempt write
`(str(dict_message[_id]) → str(e))` to the dead-letter sink and stop,
otherwise sleep `max(0, delay + uniform(-0.2, 0.2) * delay)` and retry. -/
def dispatchLoop (R : RoutingIds) (cfg : RetryConfig) (env : Envelope)
    (outcome : Nat → Option String) (jitter : Nat → ℚ) :
    Nat → Nat → List String → List DispatchEvent × List String
  | 0, _, seen => ([], seen)
  | fuel + 1, attempts, seen =>
    let mid := message_id env
    let removeStep : List DispatchEvent × List String :=
      if 0 < attempts ∧ mid ∈ seen then ([.seenRemove mid], seen.erase mid)
      else ([], seen)
    let evs₁ := removeStep.1
    let seen₁ := removeStep.2
    if mid ∈ seen₁ then
      (DispatchEvent.lockAcquire :: evs₁ ++ [DispatchEvent.lockRelease], seen₁)
    else
      let seen₂ := mid :: seen₁
      let evs₂ := DispatchEvent.lockAcquire :: evs₁ ++
        [DispatchEvent.seenAdd mid, DispatchEvent.lockRelease]
      match routeOf R env.class_id env.variant_id with
      | none => (evs₂ ++ [DispatchEvent.warnInvalid], seen₂)
      | some r =>
        match outcome attempts with
        | none => (evs₂ ++ [DispatchEvent.parserRun r], seen₂)
        | some err =>
          if attempts = cfg.max_retries - 1 then
            (evs₂ ++ [DispatchEvent.parserRun r, DispatchEvent.deadLetter env.idStr err], seen₂)
          else
            let st := max 0 (cfg.delay_secs + jitter attempts * cfg.delay_secs)
            let rest := dispatchLoop R cfg env outcome jitter fuel (attempts + 1) seen₂
            (evs₂ ++ [DispatchEvent.parserRun r, DispatchEvent.sleepFor st] ++ rest.1, rest.2)

/-- `ScraperListener.process_listened_message`, given the process-wide
`seen_messages` state: run the retry loop from attempt 0. -/
def process_listened_message (R : RoutingIds) (cfg : RetryConfig) (env : Envelope)
    (outcome : Nat → Option String) (jitter : Nat → ℚ) (seen : List String) :
    List DispatchEvent × List String :=
  dispatchLoop R cfg env outcome jitter cfg.max_retries 0 seen

/-- Events of a trace that happen while `message_lock` is held (the depth
counter tracks nested acquires; the dispatcher only ever nests to depth 1). -/
def lockedEvents : Nat → List DispatchEvent → List DispatchEvent
  | _, [] => []
  | d, DispatchEvent.lockAcquire :: rest => lockedEvents (d + 1) rest
  | d, DispatchEvent.lockRelease :: rest => lockedEvents (d - 1) rest
  | 0, _ :: rest => lockedEvents 0 rest
  | d + 1, e :: rest => e :: lockedEvents (d + 1) rest

/-- A concrete `RoutingIds` instantiation for witnesses:
`publicationClass / scholarPublicationVariant` are the `CLASS_ID = 1010` /
`VARIANT_ID = 50` of `GoogleScholarPublication.py`; the other constants are
sample distinct values. -/
def sampleRoutingIds : RoutingIds :=
  { authorClass := 2000
    scholarAuthorVariant := 60
    publicationClass := 1010
    scholarPublicationVariant := 50
    conferenceClass := 3000
    conferenceVariant := 70
    journalClass := 4000
    journalVariant := 80
    citationClass := 5000
    citationVariant := 90 }

/-! ### Exceptions and transaction events shared by the parser models -/

/-- Python exceptions as they matter to the parsers: `ValueError` raised by
validation, and the generic `Exception(f"...")` wrapper the parsers re-raise.
-/
inductive PyErr where
  | valueError (msg : String)
  | wrapped (msg : String)
deriving DecidableEq

/-- Rendering of an exception by `str(e)` / f-string interpolation. -/
def pyErrMsg : PyErr → String
  | .valueError m => m
  | .wrapped m => m

/-- Session and output events of a parser invocation. -/
inductive TxnEvent where
  | beginNested
  | commit
  | rollback
  | close
  | printMsg (s : String)
  | persistCitation (cid : String)
deriving DecidableEq

/-! ### ScholarCitationParser.py

`process_json` wraps its body in `try/except/finally`: `begin_nested()`,
validations, `_process_citation` per entry, `commit()`; `except IntegrityError`
and `except Exception` both `rollback()` and `print(...)` — neither re-raises —
and `finally` closes the session.  The publication lookup
(`_find_publication`) is a database query embedded as the `findPub` oracle. -/

/-- One entry of the `citations` list.  `none` models an absent key (the
source checks `if key not in citation_data` for `link` and `cites_id`). -/
structure CitationEntry where
  link : Option String
  cites_id : Option String
deriving DecidableEq

/-- The fields of the citation envelope read by `process_json`. -/
structure CitationJson where
  cites_id : Option String
  citations : List CitationEntry
deriving DecidableEq

/-- The `for citation_data in citations` loop: `_process_citation` validates
the required keys `link` and `cites_id` and raises a `ValueError` naming the
first missing one; on success the citation upsert is recorded as a
`persistCitation` event. -/
def citationEntriesLoop : List CitationEntry → List TxnEvent × Option PyErr
  | [] => ([], none)
  | e :: rest =>
    if e.link = none then
      ([], some (.valueError "Missing required key link in citation data"))
    else if e.cites_id = none then
      ([], some (.valueError "Missing required key cites_id in citation data"))
    else
      let next := citationEntriesLoop rest
      (TxnEvent.persistCitation (e.cites_id.getD "") :: next.1, next.2)

/-- The body of the `try` block of `process_json` after `begin_nested()`:
`cites_id` must be present and non-empty, the linked publication must exist,
the `citations` list must be non-empty, then every entry is processed. -/
def citationTryBody (findPub : String → Bool) (j : CitationJson) :
    List TxnEvent × Option PyErr :=
  match j.cites_id with
  | none => ([], some (.valueError "Missing cites_id in the input JSON"))
  | some cid =>
    if cid = "" then ([], some (.valueError "Missing cites_id in the input JSON"))
    else if ¬ findPub cid then
      ([], some (.valueError "Publication with given cites_id not found"))
    else if j.citations = [] then
      ([], some (.valueError "No citations provided in the input JSON"))
    else
      citationEntriesLoop j.citations

/-- `ScholarCitationParser.process_json`: the second component is the
exception escaping the call — by the source `except` clauses it is always
`none`; failures end in `rollback`, a `print`, and a normal return. -/
def scholarCitation_process_json (findPub : String → Bool) (j : CitationJson) :
    List TxnEvent × Option PyErr :=
  let body := citationTryBody findPub j
  match body.2 with
  | none =>
    (TxnEvent.beginNested :: body.1 ++ [TxnEvent.commit, TxnEvent.close], none)
  | some e =>
    (TxnEvent.beginNested :: body.1 ++
      [TxnEvent.rollback, TxnEvent.printMsg (pyErrMsg e), TxnEvent.close], none)

/-! ### ScholarAuthorParser.py — rows, database state and the four steps

The similarity operators run in the database; they enter the model as the
oracle `sim : String → String → ℚ`.  SQLAlchemy assigns primary keys at flush;
the model assigns `nextId` at creation (the source's autoflushing link-table
queries force the flush before the ids are used). -/

/-- An `Author` row.  `update_count` is `Option` because the parser never
assigns it: a fresh ORM object carries `None` until some other writer sets it
(the column default, if any, lives in `BaseEntity`, which is not under
`src/`). -/
structure AuthorRow where
  id : Nat
  name : String
  role : Option String
  organization : Option String
  image_url : Option String
  homepage_url : Option String
  update_count : Option Nat
deriving DecidableEq

/-- A `GoogleScholarAuthor` row. -/
structure GsAuthorRow where
  id : Nat
  author_id : String
  author_key : Option Nat
  profile_url : Option String
  verified : Option String
  h_index : Option String
  i10_index : Option String
deriving DecidableEq

/-- An `Interest` row. -/
structure InterestRow where
  id : Nat
  name : String
deriving DecidableEq

/-- A `Publication` row as touched by `_process_publications`. -/
structure PubRow where
  id : Nat
  title : String
  url : Option String
deriving DecidableEq

/-- The tables touched by `ScholarAuthorParser`, with link tables as lists of
foreign-key pairs (`AuthorCoauthor` rows are `(author_id, coauthor_id)`). -/
structure AuthorDb where
  authors : List AuthorRow
  gsAuthors : List GsAuthorRow
  interests : List InterestRow
  authorInterests : List (Nat × Nat)
  coauthorLinks : List (Nat × Nat)
  pubs : List PubRow
  pubAuthors : List (Nat × Nat)
  nextId : Nat
deriving DecidableEq

/-- Python `json_data.get(key, current)` applied to an attribute update:
keep the current value when the payload key is absent. -/
def pyGet (payload current : Option String) : Option String :=
  match payload with
  | some v => some v
  | none => current

/-- The envelope fields `process_google_scholar_data` and its helpers read. -/
structure AuthorJson where
  name : Option String
  author_id : Option String
  role : Option String
  org : Option String
  image_url : Option String
  homepage_url : Option String
  profile_url : Option String
  verified : Option String
  h_index : Option String
  i10_index : Option String
  interests : List String
  coauthors : List String
  publications : List (Option String × Option String)
deriving DecidableEq

/-- `Author(name=name, class_id=..., variant_id=...)`: the constructor sets
only the name; the other columns (including `update_count`) stay unset. -/
def freshAuthor (id : Nat) (name : String) : AuthorRow :=
  { id := id, name := name, role := none, organization := none,
    image_url := none, homepage_url := none, update_count := none }

/-- The attribute updates of `_process_author` lines 93-96: `role`, `org`,
`image_url`, `homepage_url` each default to the existing value.
`update_count` is not among them. -/
def applyAuthorFields (j : AuthorJson) (r : AuthorRow) : AuthorRow :=
  { r with
    role := pyGet j.role r.role
    organization := pyGet j.org r.organization
    image_url := pyGet j.image_url r.image_url
    homepage_url := pyGet j.homepage_url r.homepage_url }

/-- The attribute updates of `_process_author` lines 98-101 on the
`GoogleScholarAuthor` row. -/
def applyGsFields (j : AuthorJson) (g : GsAuthorRow) : GsAuthorRow :=
  { g with
    profile_url := pyGet j.profile_url g.profile_url
    verified := pyGet j.verified g.verified
    h_index := pyGet j.h_index g.h_index
    i10_index := pyGet j.i10_index g.i10_index }

/-- `ScholarAuthorParser._process_author`: find an `Author` with
`word_similarity(lower(Author.name), name_lower) > 0.85` (`first()`; the model
list order is the row order), else create one; find the `GoogleScholarAuthor`
with the exact `author_id`, else create one keyed to the author; then apply
the field updates.  Returns the updated state and the author id. -/
def scholarAuthor_process_author (sim : String → String → ℚ) (db : AuthorDb)
    (j : AuthorJson) (name scholar_id : String) : AuthorDb × Nat :=
  let nameL := name.toLower
  let foundAuthor := db.authors.find? fun r => decide (sim r.name.toLower nameL > mkRat 85 100)
  let authorStep : List AuthorRow × Nat × Nat :=
    match foundAuthor with
    | some r => (db.authors, r.id, db.nextId)
    | none => (db.authors ++ [freshAuthor db.nextId name], db.nextId, db.nextId + 1)
  let authors₁ := authorStep.1
  let aid := authorStep.2.1
  let nid₁ := authorStep.2.2
  let gsStep : List GsAuthorRow × Nat :=
    match db.gsAuthors.find? fun g => g.author_id = scholar_id with
    | some _ => (db.gsAuthors, nid₁)
    | none =>
      (db.gsAuthors ++
        [{ id := nid₁, author_id := scholar_id, author_key := some aid,
           profile_url := none, verified := none, h_index := none,
           i10_index := none }], nid₁ + 1)
  let authors₂ := authors₁.map fun r => if r.id = aid then applyAuthorFields j r else r
  let gs₂ := gsStep.1.map fun g => if g.author_id = scholar_id then applyGsFields j g else g
  ({ db with authors := authors₂, gsAuthors := gs₂, nextId := gsStep.2 }, aid)

/-- One iteration of `_process_interests`: skip falsy names; find an
`Interest` with `word_similarity(lower(Interest.name), name_lower) > 0.75`,
else create one; add the `AuthorInterest` link if absent. -/
def processInterest (sim : String → String → ℚ) (aid : Nat) (db : AuthorDb)
    (iname : String) : AuthorDb :=
  if iname = "" then db
  else
    let inameL := iname.toLower
    let step : List InterestRow × Nat × Nat :=
      match db.interests.find? fun r => decide (sim r.name.toLower inameL > mkRat 75 100) with
      | some r => (db.interests, r.id, db.nextId)
      | none => (db.interests ++ [{ id := db.nextId, name := iname }], db.nextId, db.nextId + 1)
    let links :=
      if (aid, step.2.1) ∈ db.authorInterests then db.authorInterests
      else db.authorInterests ++ [(aid, step.2.1)]
    { db with interests := step.1, authorInterests := links, nextId := step.2.2 }

/-- `ScholarAuthorParser._process_interests`. -/
def scholarAuthor_process_interests (sim : String → String → ℚ) (db : AuthorDb)
    (aid : Nat) (names : List String) : AuthorDb :=
  names.foldl (processInterest sim aid) db

/-- One iteration of `_process_coauthors`: skip falsy names; find an `Author`
with `word_similarity(lower(Author.name), coauthor_name_lower) >= 0.85`, else
create one; add the `AuthorCoauthor(author_id=author.id,
coauthor_id=coauthor.id)` link if absent.  Only this one direction is ever
inserted. -/
def processCoauthor (sim : String → String → ℚ) (aid : Nat) (db : AuthorDb)
    (cname : String) : AuthorDb :=
  if cname = "" then db
  else
    let cL := cname.toLower
    let step : List AuthorRow × Nat × Nat :=
      match db.authors.find? fun r => decide (sim r.name.toLower cL ≥ mkRat 85 100) with
      | some r => (db.authors, r.id, db.nextId)
      | none => (db.authors ++ [freshAuthor db.nextId cname], db.nextId, db.nextId + 1)
    let links :=
      if (aid, step.2.1) ∈ db.coauthorLinks then db.coauthorLinks
      else db.coauthorLinks ++ [(aid, step.2.1)]
    { db with authors := step.1, coauthorLinks := links, nextId := step.2.2 }

/-- `ScholarAuthorParser._process_coauthors`. -/
def scholarAuthor_process_coauthors (sim : String → String → ℚ) (db : AuthorDb)
    (aid : Nat) (names : List String) : AuthorDb :=
  names.foldl (processCoauthor sim aid) db

/-- One iteration of `_process_publications`: skip entries without a truthy
title; find a `Publication` with
`word_similarity(substring(lower(title), 1, n), substring(title_lower, 1, n))
>= 0.85` where `n` is the shorter of the two lengths, else create one; add the
`PublicationAuthor` link if absent. -/
def processAuthorPub (sim : String → String → ℚ) (aid : Nat) (db : AuthorDb)
    (pd : Option String × Option String) : AuthorDb :=
  match pd.1 with
  | none => db
  | some t =>
    if t = "" then db
    else
      let tL := t.toLower
      let probe := fun (r : PubRow) =>
        let n := min r.title.length tL.length
        decide (sim (r.title.toLower.take n) (tL.take n) ≥ mkRat 85 100)
      let step : List PubRow × Nat × Nat :=
        match db.pubs.find? probe with
        | some r => (db.pubs, r.id, db.nextId)
        | none => (db.pubs ++ [{ id := db.nextId, title := t, url := pd.2 }], db.nextId, db.nextId + 1)
      let links :=
        if (step.2.1, aid) ∈ db.pubAuthors then db.pubAuthors
        else db.pubAuthors ++ [(step.2.1, aid)]
      { db with pubs := step.1, pubAuthors := links, nextId := step.2.2 }

/-- `ScholarAuthorParser._process_publications`. -/
def scholarAuthor_process_publications (sim : String → String → ℚ) (db : AuthorDb)
    (aid : Nat) (pubs : List (Option String × Option String)) : AuthorDb :=
  pubs.foldl (processAuthorPub sim aid) db

/-- The body of the `try` block of `process_google_scholar_data`: validate
that `name` and `author_id` are present, then run the four steps. -/
def scholarAuthor_body (sim : String → String → ℚ) (db : AuthorDb)
    (j : AuthorJson) : Except PyErr AuthorDb :=
  match j.name, j.author_id with
  | some name, some sid =>
    let step₁ := scholarAuthor_process_author sim db j name sid
    let db₂ := scholarAuthor_process_interests sim step₁.1 step₁.2 j.interests
    let db₃ := scholarAuthor_process_coauthors sim db₂ step₁.2 j.coauthors
    let db₄ := scholarAuthor_process_publications sim db₃ step₁.2 j.publications
    .ok db₄
  | _, _ => .error (.valueError "Missing required fields name or author_id in JSON data")

/-- `ScholarAuthorParser.process_google_scholar_data`: `begin_nested()`, body,
`commit()`; on `ValueError` / `SQLAlchemyError`: `rollback()` (the returned
state is the unchanged input) and re-raise wrapped in a generic `Exception`.
The escaping exception is the second component. -/
def scholarAuthor_process_gsd (sim : String → String → ℚ) (db : AuthorDb)
    (j : AuthorJson) : AuthorDb × Option PyErr :=
  match scholarAuthor_body sim db j with
  | .ok db₂ => (db₂, none)
  | .error e =>
    (db, some (.wrapped ("Error processing Google Scholar data: " ++ pyErrMsg e)))

/-! ### JournalParser.py -/

/-- A `Journal` row with the columns `_process_journal` touches.  Scalar
payload values are kept opaque as strings. -/
structure JournalRow where
  id : Nat
  title : String
  type_ : String
  link : Option String
  sjr : Option String
  q_rank : Option String
  h_index : Option String
  total_docs : Option String
  total_docs_3years : Option String
  total_refs : Option String
  total_cites_3years : Option String
  citable_docs_3years : Option String
  cites_per_doc_2years : Option String
  refs_per_doc : Option String
  female_percent : Option String
  year : Int
  update_date : Option String
  update_count : Option Nat
deriving DecidableEq

/-- One entry of the `journals` payload list (`journal_data`); `title` and
`type` are accessed with `[]` and are required, the rest with `.get`. -/
structure JournalData where
  title : String
  type_ : String
  link : Option String
  sjr : Option String
  q_rank : Option String
  h_index : Option String
  total_docs : Option String
  total_docs_3years : Option String
  total_refs : Option String
  total_cites_3years : Option String
  citable_docs_3years : Option String
  cites_per_doc_2years : Option String
  refs_per_doc : Option String
  female_percent : Option String
  year : Option Int
deriving DecidableEq

/-- The envelope-level metadata `_process_journal` reads from `json_data`. -/
structure JournalMeta where
  update_date : Option String
  update_count : Option Nat
deriving DecidableEq

/-- JournalParser.py line 98:
`journal.update_count = metadata.get("update_count",
journal.update_count + 1 if journal.update_count else 1)` —
the payload value is used verbatim when the key is present; otherwise the
current value is bumped, with `None` and `0` both falling back to `1`. -/
def journal_update_count (payload current : Option Nat) : Nat :=
  match payload with
  | some v => v
  | none =>
    match current with
    | some (k + 1) => k + 2
    | _ => 1

/-- The `JournalParser` database state. -/
structure JournalDb where
  journals : List JournalRow
  nextId : Nat
deriving DecidableEq

/-- The update branch of `_process_journal` (lines 80-94) followed by the
metadata lines 97-98: every scalar defaults to the existing value, `year` is
overwritten, `update_date` and `update_count` are set. -/
def journalApplyUpdate (jd : JournalData) (meta : JournalMeta) (year : Int)
    (r : JournalRow) : JournalRow :=
  { r with
    link := pyGet jd.link r.link
    sjr := pyGet jd.sjr r.sjr
    q_rank := pyGet jd.q_rank r.q_rank
    h_index := pyGet jd.h_index r.h_index
    total_docs := pyGet jd.total_docs r.total_docs
    total_docs_3years := pyGet jd.total_docs_3years r.total_docs_3years
    total_refs := pyGet jd.total_refs r.total_refs
    total_cites_3years := pyGet jd.total_cites_3years r.total_cites_3years
    citable_docs_3years := pyGet jd.citable_docs_3years r.citable_docs_3years
    cites_per_doc_2years := pyGet jd.cites_per_doc_2years r.cites_per_doc_2years
    refs_per_doc := pyGet jd.refs_per_doc r.refs_per_doc
    female_percent := pyGet jd.female_percent r.female_percent
    year := year
    update_date := meta.update_date
    update_count := some (journal_update_count meta.update_count r.update_count) }

/-- The create branch of `_process_journal` (lines 58-79) followed by the
metadata lines 97-98 applied to the fresh object (whose `update_count` starts
as `None`). -/
def journalFresh (jd : JournalData) (meta : JournalMeta) (year : Int) (id : Nat) :
    JournalRow :=
  { id := id, title := jd.title, type_ := jd.type_, link := jd.link,
    sjr := jd.sjr, q_rank := jd.q_rank, h_index := jd.h_index,
    total_docs := jd.total_docs, total_docs_3years := jd.total_docs_3years,
    total_refs := jd.total_refs, total_cites_3years := jd.total_cites_3years,
    citable_docs_3years := jd.citable_docs_3years,
    cites_per_doc_2years := jd.cites_per_doc_2years,
    refs_per_doc := jd.refs_per_doc, female_percent := jd.female_percent,
    year := year, update_date := meta.update_date,
    update_count := some (journal_update_count meta.update_count none) }

/-- Update the first row matching `probe` in place, or append `mk` when no row
matches (the model of `first()`-then-update versus create-and-`add`). -/
def upsertFirst {α : Type} (probe : α → Bool) (upd : α → α) (mk : α) :
    List α → List α
  | [] => [mk]
  | r :: rest => if probe r then upd r :: rest else r :: upsertFirst probe upd mk rest

/-- `JournalParser._process_journal`: the candidate query compares
`word_similarity(Journal.title, substring(title, 1, length(Journal.title)))
> 0.7` (the probe title truncated to each row title's length);
`year = journal_data.get("year")` with falsy values replaced by `0`; then the
create or update branch runs. -/
def journal_process_journal (sim : String → String → ℚ) (db : JournalDb)
    (jd : JournalData) (meta : JournalMeta) : JournalDb :=
  let probe := fun (r : JournalRow) =>
    decide (sim r.title (jd.title.take r.title.length) > mkRat 7 10)
  let year := jd.year.getD 0
  let created := ¬ db.journals.any probe
  { journals :=
      upsertFirst probe (journalApplyUpdate jd meta year)
        (journalFresh jd meta year db.nextId) db.journals
    nextId := if created then db.nextId + 1 else db.nextId }

/-- ScholarPublicationParser.py line 101 (and likewise lines 145 and 225):
`publication.update_count = publication.update_count + 1 if
publication.update_count else 1` — an unconditional bump with `None` and `0`
falling back to `1`; the payload is not consulted. -/
def scholarPub_update_count (current : Option Nat) : Nat :=
  match current with
  | some (k + 1) => k + 2
  | _ => 1

/-! ### DblpAssocParser.py — co-author links and conference fallback -/

/-- Insert a link row unless the composite key already exists (the
`filter_by(...).first()` guard before `session.add`). -/
def addPairLink (links : List (Nat × Nat)) (p : Nat × Nat) : List (Nat × Nat) :=
  if p ∈ links then links else links ++ [p]

/-- Inner loop of `PublicationAssociationProcessor._process_coauthors`: for a
fixed enumerated author `(i, a)`, walk all enumerated authors `(j, b)` and add
the link `(a, b)` whenever `i ≠ j`. -/
def dblpCoauthInner (ia : Nat × Nat) (links : List (Nat × Nat)) :
    List (Nat × Nat) → List (Nat × Nat)
  | [] => links
  | jb :: rest =>
    let links₂ := if ia.1 ≠ jb.1 then addPairLink links (ia.2, jb.2) else links
    dblpCoauthInner ia links₂ rest

/-- Outer loop of `_process_coauthors` over the enumerated author list. -/
def dblpCoauthOuter (allPairs : List (Nat × Nat)) (links : List (Nat × Nat)) :
    List (Nat × Nat) → List (Nat × Nat)
  | [] => links
  | ia :: rest => dblpCoauthOuter allPairs (dblpCoauthInner ia links allPairs) rest

/-- `PublicationAssociationProcessor._process_coauthors(authors)`: for every
ordered pair of list positions `(i, j)` with `i ≠ j`, insert the
`AuthorCoauthor(author_id=authors[i].id, coauthor_id=authors[j].id)` link when
absent.  `authors` is the list of resolved author ids in list order. -/
def dblp_process_coauthors (authors : List Nat) (links : List (Nat × Nat)) :
    List (Nat × Nat) :=
  dblpCoauthOuter authors.enum links authors.enum

/-- A conference row freshly inserted by the acronym fallback.  Strings are
kept as character lists, as in the `StringUtils` model. -/
structure ConfInsert where
  acronym : List Char
  rank : String
deriving DecidableEq

/-- Result of `_process_conference` on the conference side: the matched
existing conference (if any), the inserted fresh conference (if any), and the
final contents of the `candidates` set in insertion order. -/
structure ConfResult where
  conf : Option Nat
  inserted : Option ConfInsert
  candidates : List (List Char)
deriving DecidableEq

/-- `candidates.add(part)`: Python set insertion, modelled as an
insertion-ordered duplicate-free list. -/
def addCandidate (cs : List (List Char)) (p : List Char) : List (List Char) :=
  if p ∈ cs then cs else cs ++ [p]

/-- The probe loop over the parts of one split: each part is looked up with
`find_conference`; the first match wins (`break`), parts failing the lookup
are added to `candidates`. -/
def probeParts (findConf : List Char → Option Nat) :
    List (List Char) → List (List Char) → Option Nat × List (List Char)
  | [], cs => (none, cs)
  | p :: rest, cs =>
    match findConf p with
    | some c => (some c, cs)
    | none => probeParts findConf rest (addCandidate cs p)

/-- One `if not conference and sep in acronym:` block of
`_process_conference`: when no conference has been found yet and the separator
occurs in the (original) acronym, split on it and probe the parts
(`acronym.split(sep)` for a one-character separator is `List.splitOn sep`). -/
def splitStage (findConf : List Char → Option Nat) (acr : List Char) (sep : Char)
    (st : Option Nat × List (List Char)) : Option Nat × List (List Char) :=
  match st.1 with
  | some c => (some c, st.2)
  | none =>
    if sep ∈ acr then
      let parts := acr.splitOn sep
      if parts.length > 1 then probeParts findConf parts st.2
      else (none, st.2)
    else (none, st.2)

/-- `PublicationAssociationProcessor._process_conference` restricted to the
conference resolution itself.  `find_conference` (a
`jaro_winkler_similarity >= 0.94` query ordered by similarity) is the oracle
`findConf`; Python's `set.pop()`, which removes and returns an *arbitrary*
element, is the oracle `pick`.  The raw acronym is probed first, then the
`@`, `/`, `-` stages; when everything fails a conference with rank
`"Unranked"` is inserted whose acronym is the original when `candidates` is
empty and `candidates.pop()` otherwise. -/
def dblp_process_conference (findConf : List Char → Option Nat)
    (pick : List (List Char) → List Char) (acr : List Char) : ConfResult :=
  let st0 : Option Nat × List (List Char) := (findConf acr, [])
  let st1 := splitStage findConf acr '@' st0
  let st2 := splitStage findConf acr '/' st1
  let st3 := splitStage findConf acr '-' st2
  match st3.1 with
  | some c => { conf := some c, inserted := none, candidates := st3.2 }
  | none =>
    let a := if st3.2.isEmpty then acr else pick st3.2
    { conf := none, inserted := some { acronym := a, rank := "Unranked" },
      candidates := st3.2 }

/-- Claim-side value for C7: the acronym the claim says a fresh conference
receives — the last part of the last split performed (splitting successively
on `@`, `/`, `-`), or the original acronym when no separator occurs.  Written
from the claim text, for comparison with the source. -/
def claimedFallbackAcronym (acr : List Char) : List Char :=
  if '-' ∈ acr then ((acr.splitOn '-').getLast?).getD acr
  else if '/' ∈ acr then ((acr.splitOn '/').getLast?).getD acr
  else if '@' ∈ acr then ((acr.splitOn '@').getLast?).getD acr
  else acr

/-- A concrete admissible implementation of `set.pop()`: return the first
element (any element of the set is a legal result of `pop`). -/
def pickHead (cs : List (List Char)) : List Char := cs.headD []

/-! ### Helper lemmas -/

/-- `first_after_fifth` agrees with `fafLoop`; the scan returns the covering
word (or its successor when short) whenever `coverIdx` locates one. -/
theorem fafLoop_eq_of_cover (p : Nat) :
    ∀ (ws : List (List Char)) (start i : Nat) (w : List Char),
      coverIdx p ws start = some i → ws.get? i = some w →
      fafLoop p ws start = if w.length < 2 then ws.get? (i + 1) else some w := by
  intro ws
  induction ws with
  | nil => intro start i w h _; simp [coverIdx] at h
  | cons w₀ rest ih =>
    intro start i w hcov hget
    rw [coverIdx] at hcov
    rw [fafLoop]
    by_cases hc : start ≤ p ∧ p < start + w₀.length
    · rw [if_pos hc] at hcov
      injection hcov with hi
      subst hi
      rw [List.get?_cons_zero] at hget
      injection hget with hw
      subst hw
      rw [if_pos hc]
      rw [List.get?_cons_succ]
      have h0 : rest.get? 0 = rest.head? := by cases rest <;> rfl
      rw [h0]
    · rw [if_neg hc] at hcov
      rw [if_neg hc]
      obtain ⟨j, hj, hij⟩ := Option.map_eq_some'.mp hcov
      subst hij
      rw [List.get?_cons_succ] at hget
      rw [ih _ _ _ hj hget]
      rw [List.get?_cons_succ]

theorem lockedEvents_nil : lockedEvents 0 [] = [] := rfl

theorem lockedEvents_acq (l : List DispatchEvent) :
    lockedEvents 0 (DispatchEvent.lockAcquire :: l) = lockedEvents 1 l := rfl

theorem lockedEvents_rel (l : List DispatchEvent) :
    lockedEvents 1 (DispatchEvent.lockRelease :: l) = lockedEvents 0 l := rfl

theorem lockedEvents_seenRemove (i : String) (l : List DispatchEvent) :
    lockedEvents 1 (DispatchEvent.seenRemove i :: l) =
      DispatchEvent.seenRemove i :: lockedEvents 1 l := rfl

theorem lockedEvents_seenAdd (i : String) (l : List DispatchEvent) :
    lockedEvents 1 (DispatchEvent.seenAdd i :: l) =
      DispatchEvent.seenAdd i :: lockedEvents 1 l := rfl

theorem lockedEvents_parserRun (r : Route) (l : List DispatchEvent) :
    lockedEvents 0 (DispatchEvent.parserRun r :: l) = lockedEvents 0 l := rfl

theorem lockedEvents_warn (l : List DispatchEvent) :
    lockedEvents 0 (DispatchEvent.warnInvalid :: l) = lockedEvents 0 l := rfl

theorem lockedEvents_sleep (t : ℚ) (l : List DispatchEvent) :
    lockedEvents 0 (DispatchEvent.sleepFor t :: l) = lockedEvents 0 l := rfl

theorem lockedEvents_deadLetter (k m : String) (l : List DispatchEvent) :
    lockedEvents 0 (DispatchEvent.deadLetter k m :: l) = lockedEvents 0 l := rfl

/-- Every sleep the retry loop performs has the back-off value
`max(0, delay + uniform * delay)` of some failed attempt. -/
theorem dispatchLoop_sleeps (R : RoutingIds) (cfg : RetryConfig) (env : Envelope)
    (outcome : Nat → Option String) (jitter : Nat → ℚ) :
    ∀ (fuel attempts : Nat) (seen : List String) (t : ℚ),
      DispatchEvent.sleepFor t ∈ (dispatchLoop R cfg env outcome jitter fuel attempts seen).1 →
      ∃ a, outcome a ≠ none ∧ t = max 0 (cfg.delay_secs + jitter a * cfg.delay_secs) := by
  intro fuel
  induction fuel with
  | zero => intro attempts seen t ht; simp [dispatchLoop] at ht
  | succ n ih =>
    intro attempts seen t ht
    rw [dispatchLoop] at ht
    by_cases h1 : 0 < attempts ∧ message_id env ∈ seen
    · rw [if_pos h1] at ht
      split at ht
      · simp at ht
      · split at ht
        · simp at ht
        · split at ht
          · simp at ht
          · split at ht
            · simp at ht
            · simp at ht
              rcases ht with h | h
              · rename_i err heq hfin
                exact ⟨attempts, by rw [heq]; simp, h⟩
              · exact ih _ _ _ h
    · rw [if_neg h1] at ht
      split at ht
      · simp at ht
      · split at ht
        · simp at ht
        · split at ht
          · simp at ht
          · split at ht
            · simp at ht
            · simp at ht
              rcases ht with h | h
              · rename_i err heq hfin
                exact ⟨attempts, by rw [heq]; simp, h⟩
              · exact ih _ _ _ h

/-- The only dead-letter write of the retry loop pairs the envelope's bare
`_id` with the error text of the final attempt. -/
theorem dispatchLoop_deadLetter (R : RoutingIds) (cfg : RetryConfig) (env : Envelope)
    (outcome : Nat → Option String) (jitter : Nat → ℚ) :
    ∀ (fuel attempts : Nat) (seen : List String) (k m : String),
      DispatchEvent.deadLetter k m ∈ (dispatchLoop R cfg env outcome jitter fuel attempts seen).1 →
      k = env.idStr ∧ outcome (cfg.max_retries - 1) = some m := by
  intro fuel
  induction fuel with
  | zero => intro attempts seen k m ht; simp [dispatchLoop] at ht
  | succ n ih =>
    intro attempts seen k m ht
    rw [dispatchLoop] at ht
    by_cases h1 : 0 < attempts ∧ message_id env ∈ seen
    · rw [if_pos h1] at ht
      split at ht
      · simp at ht
      · split at ht
        · simp at ht
        · split at ht
          · simp at ht
          · split at ht
            · rename_i err heq hfin
              simp at ht
              exact ⟨ht.1, by rw [← hfin]; rw [heq, ht.2]⟩
            · simp at ht
              exact ih _ _ _ _ ht
    · rw [if_neg h1] at ht
      split at ht
      · simp at ht
      · split at ht
        · simp at ht
        · split at ht
          · simp at ht
          · split at ht
            · rename_i err heq hfin
              simp at ht
              exact ⟨ht.1, by rw [← hfin]; rw [heq, ht.2]⟩
            · simp at ht
              exact ih _ _ _ _ ht

/-- Everything the retry loop does while holding `message_lock` is seen-set
bookkeeping. -/
theorem lockedEvents_dispatchLoop (R : RoutingIds) (cfg : RetryConfig) (env : Envelope)
    (outcome : Nat → Option String) (jitter : Nat → ℚ) :
    ∀ (fuel attempts : Nat) (seen : List String) (e : DispatchEvent),
      e ∈ lockedEvents 0 (dispatchLoop R cfg env outcome jitter fuel attempts seen).1 →
      (∃ i, e = DispatchEvent.seenAdd i) ∨ (∃ i, e = DispatchEvent.seenRemove i) := by
  intro fuel
  induction fuel with
  | zero => intro attempts seen e he; simp [dispatchLoop, lockedEvents_nil] at he
  | succ n ih =>
    intro attempts seen e he
    rw [dispatchLoop] at he
    by_cases h1 : 0 < attempts ∧ message_id env ∈ seen
    · rw [if_pos h1] at he
      split at he
      · simp only [List.cons_append, List.nil_append, List.append_assoc, lockedEvents_acq,
          lockedEvents_rel, lockedEvents_seenRemove, lockedEvents_seenAdd, lockedEvents_parserRun,
          lockedEvents_warn, lockedEvents_sleep, lockedEvents_deadLetter, lockedEvents_nil] at he
        simp at he
        subst he
        right; exact ⟨_, rfl⟩
      · split at he
        all_goals
          try simp only [List.cons_append, List.nil_append, List.append_assoc, lockedEvents_acq,
            lockedEvents_rel, lockedEvents_seenRemove, lockedEvents_seenAdd, lockedEvents_parserRun,
            lockedEvents_warn, lockedEvents_sleep, lockedEvents_deadLetter, lockedEvents_nil] at he
        · simp at he
          rcases he with h | h
          · right; exact ⟨_, h⟩
          · left; exact ⟨_, h⟩
        · split at he
          all_goals
            try simp only [List.cons_append, List.nil_append, List.append_assoc, lockedEvents_acq,
              lockedEvents_rel, lockedEvents_seenRemove, lockedEvents_seenAdd, lockedEvents_parserRun,
              lockedEvents_warn, lockedEvents_sleep, lockedEvents_deadLetter, lockedEvents_nil] at he
          · simp at he
            rcases he with h | h
            · right; exact ⟨_, h⟩
            · left; exact ⟨_, h⟩
          · split at he
            all_goals
              try simp only [List.cons_append, List.nil_append, List.append_assoc, lockedEvents_acq,
                lockedEvents_rel, lockedEvents_seenRemove, lockedEvents_seenAdd, lockedEvents_parserRun,
                lockedEvents_warn, lockedEvents_sleep, lockedEvents_deadLetter, lockedEvents_nil] at he
            · simp at he
              rcases he with h | h
              · right; exact ⟨_, h⟩
              · left; exact ⟨_, h⟩
            · simp only [List.mem_cons] at he
              rcases he with h | h | h
              · right; exact ⟨_, h⟩
              · left; exact ⟨_, h⟩
              · exact ih _ _ _ h
    · rw [if_neg h1] at he
      split at he
      · simp only [List.cons_append, List.nil_append, List.append_assoc, lockedEvents_acq,
          lockedEvents_rel, lockedEvents_seenRemove, lockedEvents_seenAdd, lockedEvents_parserRun,
          lockedEvents_warn, lockedEvents_sleep, lockedEvents_deadLetter, lockedEvents_nil] at he
        simp at he
      · split at he
        all_goals
          try simp only [List.cons_append, List.nil_append, List.append_assoc, lockedEvents_acq,
            lockedEvents_rel, lockedEvents_seenRemove, lockedEvents_seenAdd, lockedEvents_parserRun,
            lockedEvents_warn, lockedEvents_sleep, lockedEvents_deadLetter, lockedEvents_nil] at he
        · simp at he
          subst he
          left; exact ⟨_, rfl⟩
        · split at he
          all_goals
            try simp only [List.cons_append, List.nil_append, List.append_assoc, lockedEvents_acq,
              lockedEvents_rel, lockedEvents_seenRemove, lockedEvents_seenAdd, lockedEvents_parserRun,
              lockedEvents_warn, lockedEvents_sleep, lockedEvents_deadLetter, lockedEvents_nil] at he
          · simp at he
            subst he
            left; exact ⟨_, rfl⟩
          · split at he
            all_goals
              try simp only [List.cons_append, List.nil_append, List.append_assoc, lockedEvents_acq,
                lockedEvents_rel, lockedEvents_seenRemove, lockedEvents_seenAdd, lockedEvents_parserRun,
                lockedEvents_warn, lockedEvents_sleep, lockedEvents_deadLetter, lockedEvents_nil] at he
            · simp at he
              subst he
              left; exact ⟨_, rfl⟩
            · simp only [List.mem_cons] at he
              rcases he with h | h
              · left; exact ⟨_, h⟩
              · exact ih _ _ _ h
/-- Claim C2 (amended): on every exception the dispatch engine sleeps
`max(0, delay + u)` seconds with `u = uniform(-0.2, 0.2) * delay` (so
`u` lies in `[-0.2*delay, 0.2*delay]` when `delay >= 0`) and retries up to
`max_retries` attempts; on final failure it writes the error text to the
dead-letter sink keyed by the envelope's bare `_id` — not by
`msg_id = class_id ++ variant_id ++ _id`, which is used only for
deduplication. -/
theorem c2_retry_backoff_deadletter :
    ∀ (R : RoutingIds) (cfg : RetryConfig) (env : Envelope)
      (outcome : Nat → Option String) (jitter : Nat → ℚ) (seen : List String),
      0 ≤ cfg.delay_secs →
      (∀ a, -(mkRat 1 5) ≤ jitter a ∧ jitter a ≤ mkRat 1 5) →
      (∀ t, DispatchEvent.sleepFor t ∈
          (process_listened_message R cfg env outcome jitter seen).1 →
        ∃ u, -(cfg.delay_secs * mkRat 1 5) ≤ u ∧ u ≤ cfg.delay_secs * mkRat 1 5 ∧
          t = max 0 (cfg.delay_secs + u)) ∧
      (∀ k m, DispatchEvent.deadLetter k m ∈
          (process_listened_message R cfg env outcome jitter seen).1 →
        k = env.idStr ∧ outcome (cfg.max_retries - 1) = some m) := by
  intro R cfg env outcome jitter seen hδ hj
  constructor
  · intro t ht
    obtain ⟨a, -, hta⟩ := dispatchLoop_sleeps R cfg env outcome jitter _ _ _ _ ht
    refine ⟨jitter a * cfg.delay_secs, ?_, ?_, hta⟩
    · have h := mul_le_mul_of_nonneg_right (hj a).1 hδ
      nlinarith [h]
    · have h := mul_le_mul_of_nonneg_right (hj a).2 hδ
      nlinarith [h]
  · intro k m hk
    exact dispatchLoop_deadLetter R cfg env outcome jitter _ _ _ _ _ hk

/-- Claim C2 counterexample: for a concrete envelope with `_id = "m1"` whose
parser always fails, the dead-letter write is keyed `"m1"`, while
`msg_id = class_id ++ variant_id ++ _id = "101050m1"`; the two differ, so the
claimed mapping `(msg_id → error)` is not what the code writes. -/
theorem c2_counterexample :
    (process_listened_message sampleRoutingIds { max_retries := 1, delay_secs := 5 }
        { class_id := 1010, variant_id := 50, idStr := "m1" }
        (fun _ => some "boom") (fun _ => 0) []).1 =
      [DispatchEvent.lockAcquire, DispatchEvent.seenAdd "101050m1", DispatchEvent.lockRelease,
        DispatchEvent.parserRun .scholarPublication, DispatchEvent.deadLetter "m1" "boom"] ∧
    message_id { class_id := 1010, variant_id := 50, idStr := "m1" } = "101050m1" ∧
    ("m1" : String) ≠ "101050m1" := by decide

/-- Claim C2 witness: the amended theorem applied to a concrete envelope,
configuration, outcome and jitter. -/
theorem c2_witness :
    ("m1" : String) = ({ class_id := 1010, variant_id := 50, idStr := "m1" } : Envelope).idStr ∧
    (fun _ : Nat => some "boom") (({ max_retries := 1, delay_secs := 5 } : RetryConfig).max_retries - 1)
      = some "boom" :=
  (c2_retry_backoff_deadletter sampleRoutingIds { max_retries := 1, delay_secs := 5 }
      { class_id := 1010, variant_id := 50, idStr := "m1" } (fun _ => some "boom") (fun _ => 0) []
      (by norm_num)
      (fun a => by
        show -(mkRat 1 5) ≤ (0:ℚ) ∧ (0:ℚ) ≤ mkRat 1 5
        decide)).2 "m1" "boom" (by decide)

/-- Claim C3 (amended): the process-wide `message_lock` guards only the
seen-set bookkeeping (`seenAdd` / `seenRemove`); the typed parsers execute
after the lock has been released, so no parser ever runs while the mutex is
held and the mutex does not serialise database work. -/
theorem c3_mutex_scope :
    ∀ (R : RoutingIds) (cfg : RetryConfig) (env : Envelope)
      (outcome : Nat → Option String) (jitter : Nat → ℚ) (seen : List String),
      (∀ e ∈ lockedEvents 0 (process_listened_message R cfg env outcome jitter seen).1,
        (∃ i, e = DispatchEvent.seenAdd i) ∨ (∃ i, e = DispatchEvent.seenRemove i)) ∧
      (∀ r, DispatchEvent.parserRun r ∉
        lockedEvents 0 (process_listened_message R cfg env outcome jitter seen).1) := by
  intro R cfg env outcome jitter seen
  have hmain := lockedEvents_dispatchLoop R cfg env outcome jitter cfg.max_retries 0 seen
  refine ⟨hmain, ?_⟩
  intro r hr
  rcases hmain _ hr with ⟨i, h⟩ | ⟨i, h⟩ <;> cases h

/-- Claim C3 counterexample: in the concrete dispatch trace of a Scholar
publication envelope the `parserRun` event is present but is not among the
events performed under the lock, refuting "executes the chosen typed parser
while holding a process-wide mutex". -/
theorem c3_counterexample :
    DispatchEvent.parserRun .scholarPublication ∈
      (process_listened_message sampleRoutingIds { max_retries := 1, delay_secs := 5 }
        { class_id := 1010, variant_id := 50, idStr := "m2" }
        (fun _ => none) (fun _ => 0) []).1 ∧
    DispatchEvent.parserRun .scholarPublication ∉
      lockedEvents 0 (process_listened_message sampleRoutingIds { max_retries := 1, delay_secs := 5 }
        { class_id := 1010, variant_id := 50, idStr := "m2" }
        (fun _ => none) (fun _ => 0) []).1 := by decide

/-- Claim C3 witness: the amended theorem applied to a concrete envelope and
configuration. -/
theorem c3_witness :
    DispatchEvent.parserRun .journal ∉
      lockedEvents 0 (process_listened_message sampleRoutingIds { max_retries := 2, delay_secs := 3 }
        { class_id := 4000, variant_id := 80, idStr := "m3" }
        (fun _ => none) (fun _ => 0) []).1 :=
  (c3_mutex_scope sampleRoutingIds { max_retries := 2, delay_secs := 3 }
    { class_id := 4000, variant_id := 80, idStr := "m3" } (fun _ => none) (fun _ => 0) []).2 .journal

/-- Claim C4 (amended): re-sending an envelope whose `msg_id` is already in
the process-wide seen set does nothing: the call acquires and releases the
lock, runs no parser, and leaves the seen set unchanged — so a replay leaves
row counts *and* `update_count` unchanged (incremented by 0, not 1). -/
theorem c4_replay_dedup :
    ∀ (R : RoutingIds) (cfg : RetryConfig) (env : Envelope)
      (outcome : Nat → Option String) (jitter : Nat → ℚ) (seen : List String),
      1 ≤ cfg.max_retries → message_id env ∈ seen →
      process_listened_message R cfg env outcome jitter seen =
        ([DispatchEvent.lockAcquire, DispatchEvent.lockRelease], seen) := by
  intro R cfg env outcome jitter seen hmax hmem
  obtain ⟨k, hk⟩ : ∃ k, cfg.max_retries = k + 1 := ⟨cfg.max_retries - 1, by omega⟩
  rw [process_listened_message, hk, dispatchLoop]
  have h1 : ¬ (0 < 0 ∧ message_id env ∈ seen) := by simp
  rw [if_neg h1]
  rw [if_pos hmem]
  rfl

/-- Claim C4 counterexample: a first dispatch of a concrete envelope runs the
parser and records its `msg_id`; dispatching the identical envelope again
yields the bare `[lockAcquire, lockRelease]` trace — no parser runs, so
`update_count` cannot be incremented by 1 as the claim requires. -/
theorem c4_counterexample :
    DispatchEvent.parserRun .scholarPublication ∈
      (process_listened_message sampleRoutingIds { max_retries := 3, delay_secs := 5 }
        { class_id := 1010, variant_id := 50, idStr := "m1" }
        (fun _ => none) (fun _ => 0) []).1 ∧
    (process_listened_message sampleRoutingIds { max_retries := 3, delay_secs := 5 }
        { class_id := 1010, variant_id := 50, idStr := "m1" }
        (fun _ => none) (fun _ => 0) []).2 = ["101050m1"] ∧
    process_listened_message sampleRoutingIds { max_retries := 3, delay_secs := 5 }
        { class_id := 1010, variant_id := 50, idStr := "m1" }
        (fun _ => none) (fun _ => 0) ["101050m1"] =
      ([DispatchEvent.lockAcquire, DispatchEvent.lockRelease], ["101050m1"]) := by decide

/-- Claim C4 witness: the amended theorem applied to a concrete replayed
envelope. -/
theorem c4_witness :
    process_listened_message sampleRoutingIds { max_retries := 3, delay_secs := 5 }
        { class_id := 1010, variant_id := 50, idStr := "m1" }
        (fun _ => none) (fun _ => 0) ["101050m1"] =
      ([DispatchEvent.lockAcquire, DispatchEvent.lockRelease], ["101050m1"]) :=
  c4_replay_dedup sampleRoutingIds { max_retries := 3, delay_secs := 5 }
    { class_id := 1010, variant_id := 50, idStr := "m1" }
    (fun _ => none) (fun _ => 0) ["101050m1"] (by decide) (by decide)

theorem citationEntriesLoop_events :
    ∀ (l : List CitationEntry) (e : TxnEvent), e ∈ (citationEntriesLoop l).1 →
      ∃ c, e = TxnEvent.persistCitation c := by
  intro l
  induction l with
  | nil => intro e he; simp [citationEntriesLoop] at he
  | cons a rest ih =>
    intro e he
    rw [citationEntriesLoop] at he
    split at he
    · simp at he
    · split at he
      · simp at he
      · simp only [List.mem_cons] at he
        rcases he with rfl | he
        · exact ⟨_, rfl⟩
        · exact ih _ he

theorem citationTryBody_events :
    ∀ (findPub : String → Bool) (j : CitationJson) (e : TxnEvent),
      e ∈ (citationTryBody findPub j).1 → ∃ c, e = TxnEvent.persistCitation c := by
  intro findPub j e he
  rw [citationTryBody] at he
  split at he
  · simp at he
  · split at he
    · simp at he
    · split at he
      · simp at he
      · split at he
        · simp at he
        · exact citationEntriesLoop_events _ _ he

/-- Claim C1 (amended): every parser opens a nested transaction, commits on
success and rolls back on a caught error, and `ScholarAuthorParser` re-raises
the error wrapped in a generic `Exception`; but `ScholarCitationParser.process_json`
catches *all* exceptions, rolls back, prints, and returns normally — no error
ever escapes it (its escaping-exception component is always `none`), though no
partial state is committed. -/
theorem c1_parser_rollback_rethrow :
    (∀ (findPub : String → Bool) (j : CitationJson),
      (scholarCitation_process_json findPub j).2 = none ∧
      ((citationTryBody findPub j).2 ≠ none →
        TxnEvent.commit ∉ (scholarCitation_process_json findPub j).1 ∧
        TxnEvent.rollback ∈ (scholarCitation_process_json findPub j).1)) ∧
    (∀ (sim : String → String → ℚ) (db : AuthorDb) (j : AuthorJson),
      (∀ db₂, scholarAuthor_body sim db j = .ok db₂ →
        scholarAuthor_process_gsd sim db j = (db₂, none)) ∧
      (∀ e, scholarAuthor_body sim db j = .error e →
        scholarAuthor_process_gsd sim db j =
          (db, some (.wrapped ("Error processing Google Scholar data: " ++ pyErrMsg e))))) := by
  constructor
  · intro findPub j
    cases hb : (citationTryBody findPub j).2 with
    | none =>
      refine ⟨by simp [scholarCitation_process_json, hb], fun h => absurd rfl h⟩
    | some err =>
      refine ⟨by simp [scholarCitation_process_json, hb], fun _ => ⟨?_, ?_⟩⟩
      · intro hmem
        simp [scholarCitation_process_json, hb] at hmem
        obtain ⟨c, hc⟩ := citationTryBody_events findPub j _ hmem
        cases hc
      · simp [scholarCitation_process_json, hb]
  · intro sim db j
    constructor
    · intro db₂ h
      simp [scholarAuthor_process_gsd, h]
    · intro e h
      simp [scholarAuthor_process_gsd, h]

/-- Claim C1 counterexample: on an envelope without `cites_id` the citation
parser's body fails, yet `process_json` returns normally (escaped exception
`none`) after `beginNested, rollback, print, close` — refuting "rethrows the
error to the dispatch engine, never returning normally after a failure". -/
theorem c1_counterexample :
    (citationTryBody (fun _ => false) { cites_id := none, citations := [] }).2 ≠ none ∧
    scholarCitation_process_json (fun _ => false) { cites_id := none, citations := [] } =
      ([TxnEvent.beginNested, TxnEvent.rollback,
        TxnEvent.printMsg "Missing cites_id in the input JSON", TxnEvent.close], none) ∧
    TxnEvent.commit ∉
      (scholarCitation_process_json (fun _ => false) { cites_id := none, citations := [] }).1 := by
  refine ⟨by decide, by rfl, by decide⟩

/-- Claim C1 witness: the amended theorem applied to the concrete failing
envelope. -/
theorem c1_witness :
    TxnEvent.rollback ∈
      (scholarCitation_process_json (fun _ => false) { cites_id := none, citations := [] }).1 ∧
    (scholarCitation_process_json (fun _ => false) { cites_id := none, citations := [] }).2 = none :=
  ⟨((c1_parser_rollback_rethrow.1 (fun _ => false) { cites_id := none, citations := [] }).2
      (by decide)).2,
    (c1_parser_rollback_rethrow.1 (fun _ => false) { cites_id := none, citations := [] }).1⟩

theorem applyAuthorFields_update_count (j : AuthorJson) (r : AuthorRow) :
    (applyAuthorFields j r).update_count = r.update_count := rfl

/-- Claim C5 (amended): when the envelope does *not* carry `update_count`,
`JournalParser` (and likewise `ConferenceProcessor` / `ScholarCitationParser`)
sets `update_count` to `coalesce(update_count, 0) + 1`, and
`ScholarPublicationParser` always does so; but a payload-supplied
`update_count` is stored verbatim, and `ScholarAuthorParser._process_author`
never assigns `update_count` at all (the multiset of author `update_count`
values is unchanged, except for a fresh row created with `None`). -/
theorem c5_update_count :
    (∀ current, journal_update_count none current = current.getD 0 + 1) ∧
    (∀ v current, journal_update_count (some v) current = v) ∧
    (∀ current, scholarPub_update_count current = current.getD 0 + 1) ∧
    (∀ (sim : String → String → ℚ) (db : AuthorDb) (j : AuthorJson) (name sid : String),
      ((scholarAuthor_process_author sim db j name sid).1.authors.map fun r => r.update_count) =
          db.authors.map (fun r => r.update_count) ∨
      ((scholarAuthor_process_author sim db j name sid).1.authors.map fun r => r.update_count) =
          db.authors.map (fun r => r.update_count) ++ [none]) := by
  refine ⟨?_, ?_, ?_, ?_⟩
  · intro current
    cases current with
    | none => rfl
    | some k => cases k <;> rfl
  · intro v current; rfl
  · intro current
    cases current with
    | none => rfl
    | some k => cases k <;> rfl
  · intro sim db j name sid
    have hmap : ∀ (l : List AuthorRow) (aid : Nat),
        ((l.map fun r => if r.id = aid then applyAuthorFields j r else r).map
            fun r => r.update_count) = l.map fun r => r.update_count := by
      intro l aid
      rw [List.map_map]
      apply List.map_congr_left
      intro r _
      by_cases h : r.id = aid <;> simp [h, applyAuthorFields_update_count]
    cases hfind : db.authors.find? fun r => decide (sim r.name.toLower name.toLower > mkRat 85 100) with
    | some r =>
      left
      simp only [scholarAuthor_process_author, hfind]
      exact hmap db.authors r.id
    | none =>
      right
      simp only [scholarAuthor_process_author, hfind]
      rw [hmap (db.authors ++ [freshAuthor db.nextId name]) db.nextId]
      rw [List.map_append]
      rfl

/-- Claim C5 counterexample: a journal envelope carrying `update_count = 0`
produces a row with `update_count = 0`, not `coalesce(update_count, 0) + 1 = 1`,
refuting "sets the row's update_count to coalesce(update_count, 0) + 1 ...
regardless of whether the envelope payload carries its own update_count". -/
theorem c5_counterexample :
    ((journal_process_journal (fun _ _ => 0) { journals := [], nextId := 1 }
        { title := "nature", type_ := "journal", link := none, sjr := none, q_rank := none,
          h_index := none, total_docs := none, total_docs_3years := none, total_refs := none,
          total_cites_3years := none, citable_docs_3years := none, cites_per_doc_2years := none,
          refs_per_doc := none, female_percent := none, year := none }
        { update_date := none, update_count := some 0 }).journals.map fun r => r.update_count)
      = [some 0] ∧
    journal_update_count (some 0) none = 0 ∧
    journal_update_count (some 0) (some 5) = 0 := by decide

/-- Claim C5 witness: the amended theorem applied to a concrete current
value. -/
theorem c5_witness : journal_update_count none (some 3) = 4 :=
  (c5_update_count.1 (some 3)).trans rfl

theorem mem_addPairLink (L : List (Nat × Nat)) (p x : Nat × Nat) :
    x ∈ addPairLink L p ↔ x ∈ L ∨ x = p := by
  unfold addPairLink
  split
  · rename_i h
    constructor
    · exact Or.inl
    · rintro (h2 | rfl)
      · exact h2
      · exact h
  · simp [List.mem_append]

theorem mem_dblpCoauthInner (ia x : Nat × Nat) :
    ∀ (js L : List (Nat × Nat)),
      x ∈ dblpCoauthInner ia L js ↔
        x ∈ L ∨ ∃ jb ∈ js, ia.1 ≠ jb.1 ∧ x = (ia.2, jb.2) := by
  intro js
  induction js with
  | nil => intro L; simp [dblpCoauthInner]
  | cons jb rest ih =>
    intro L
    simp only [dblpCoauthInner]
    by_cases h : ia.1 ≠ jb.1
    · rw [if_pos h, ih, mem_addPairLink]
      simp only [List.mem_cons]
      constructor
      · rintro ((hx | rfl) | ⟨jb2, hjb2, hne, rfl⟩)
        · exact Or.inl hx
        · exact Or.inr ⟨jb, Or.inl rfl, h, rfl⟩
        · exact Or.inr ⟨jb2, Or.inr hjb2, hne, rfl⟩
      · rintro (hx | ⟨jb2, hjb2, hne, rfl⟩)
        · exact Or.inl (Or.inl hx)
        · rcases hjb2 with rfl | hjb2
          · exact Or.inl (Or.inr rfl)
          · exact Or.inr ⟨jb2, hjb2, hne, rfl⟩
    · rw [if_neg h, ih]
      simp only [List.mem_cons]
      constructor
      · rintro (hx | ⟨jb2, hjb2, hne, rfl⟩)
        · exact Or.inl hx
        · exact Or.inr ⟨jb2, Or.inr hjb2, hne, rfl⟩
      · rintro (hx | ⟨jb2, hjb2, hne, rfl⟩)
        · exact Or.inl hx
        · rcases hjb2 with rfl | hjb2
          · exact absurd hne h
          · exact Or.inr ⟨jb2, hjb2, hne, rfl⟩


theorem mem_dblpCoauthOuter (ws : List (Nat × Nat)) (x : Nat × Nat) :
    ∀ (ps L : List (Nat × Nat)),
      x ∈ dblpCoauthOuter ws L ps ↔
        x ∈ L ∨ ∃ ia ∈ ps, ∃ jb ∈ ws, ia.1 ≠ jb.1 ∧ x = (ia.2, jb.2) := by
  intro ps
  induction ps with
  | nil => intro L; simp [dblpCoauthOuter]
  | cons ia rest ih =>
    intro L
    simp only [dblpCoauthOuter]
    rw [ih, mem_dblpCoauthInner]
    simp only [List.mem_cons]
    constructor
    · rintro ((hx | ⟨jb, hjb, hne, rfl⟩) | ⟨ia2, hia2, jb, hjb, hne, rfl⟩)
      · exact Or.inl hx
      · exact Or.inr ⟨ia, Or.inl rfl, jb, hjb, hne, rfl⟩
      · exact Or.inr ⟨ia2, Or.inr hia2, jb, hjb, hne, rfl⟩
    · rintro (hx | ⟨ia2, hia2, jb, hjb, hne, rfl⟩)
      · exact Or.inl (Or.inl hx)
      · rcases hia2 with rfl | hia2
        · exact Or.inl (Or.inr ⟨jb, hjb, hne, rfl⟩)
        · exact Or.inr ⟨ia2, hia2, jb, hjb, hne, rfl⟩

theorem mem_dblp_process_coauthors (authors : List Nat) (links : List (Nat × Nat))
    (x : Nat × Nat) :
    x ∈ dblp_process_coauthors authors links ↔
      x ∈ links ∨ ∃ ia ∈ authors.enum, ∃ jb ∈ authors.enum,
        ia.1 ≠ jb.1 ∧ x = (ia.2, jb.2) :=
  mem_dblpCoauthOuter authors.enum x authors.enum links

theorem processCoauthor_links (sim : String → String → ℚ) (aid : Nat) (db : AuthorDb)
    (cname : String) :
    ∀ p ∈ (processCoauthor sim aid db cname).coauthorLinks,
      p ∈ db.coauthorLinks ∨ p.1 = aid := by
  intro p hp
  rw [processCoauthor] at hp
  split at hp
  · exact Or.inl hp
  · dsimp only at hp
    split at hp
    · exact Or.inl hp
    · simp only [List.mem_append, List.mem_singleton] at hp
      rcases hp with hp | rfl
      · exact Or.inl hp
      · exact Or.inr rfl

/-- Claim C6 (amended): `PublicationAssociationProcessor._process_coauthors`
does populate the relation pairwise — it inserts `(authors[i], authors[j])`
for every ordered position pair `i ≠ j`, and it preserves symmetry of the
`AuthorCoauthor` relation; but `ScholarAuthorParser._process_coauthors` only
ever inserts links whose first component is the envelope's author
(`(author, coauthor)`), never the reverse direction, so the relation is not
symmetric after every operation. -/
theorem c6_coauthor_symmetry :
    (∀ (authors : List Nat) (links : List (Nat × Nat)),
      (∀ a b, (a, b) ∈ links → (b, a) ∈ links) →
      ∀ a b, (a, b) ∈ dblp_process_coauthors authors links →
        (b, a) ∈ dblp_process_coauthors authors links) ∧
    (∀ (authors : List Nat) (links : List (Nat × Nat)) (i j : Nat) (a b : Nat),
      i ≠ j → authors[i]? = some a → authors[j]? = some b →
      (a, b) ∈ dblp_process_coauthors authors links) ∧
    (∀ (sim : String → String → ℚ) (db : AuthorDb) (aid : Nat) (names : List String),
      ∀ p ∈ (scholarAuthor_process_coauthors sim db aid names).coauthorLinks,
        p ∈ db.coauthorLinks ∨ p.1 = aid) := by
  refine ⟨?_, ?_, ?_⟩
  · intro authors links hsym a b hab
    rw [mem_dblp_process_coauthors] at hab ⊢
    rcases hab with h | ⟨ia, hia, jb, hjb, hne, heq⟩
    · exact Or.inl (hsym a b h)
    · injection heq with h1 h2
      subst h1
      subst h2
      exact Or.inr ⟨jb, hjb, ia, hia, Ne.symm hne, rfl⟩
  · intro authors links i j a b hij hi hj
    rw [mem_dblp_process_coauthors]
    right
    exact ⟨(i, a), List.mk_mem_enum_iff_getElem?.mpr hi, (j, b),
      List.mk_mem_enum_iff_getElem?.mpr hj, hij, rfl⟩
  · intro sim db aid names
    induction names generalizing db with
    | nil => intro p hp; exact Or.inl hp
    | cons c rest ih =>
      intro p hp
      rcases ih (processCoauthor sim aid db c) p hp with h | h
      · exact processCoauthor_links sim aid db c p h
      · exact Or.inr h

/-- Claim C6 counterexample: processing one co-author name for author 1 on an
empty link table inserts `(1, 2)` but not `(2, 1)`, refuting "both link rows
(i, j) and (j, i) are inserted when absent" for `ScholarAuthorParser`. -/
theorem c6_counterexample :
    (1, 2) ∈ (scholarAuthor_process_coauthors (fun _ _ => 0)
      { authors := [freshAuthor 1 "ada"], gsAuthors := [], interests := [],
        authorInterests := [], coauthorLinks := [], pubs := [], pubAuthors := [],
        nextId := 2 } 1 ["bob"]).coauthorLinks ∧
    (2, 1) ∉ (scholarAuthor_process_coauthors (fun _ _ => 0)
      { authors := [freshAuthor 1 "ada"], gsAuthors := [], interests := [],
        authorInterests := [], coauthorLinks := [], pubs := [], pubAuthors := [],
        nextId := 2 } 1 ["bob"]).coauthorLinks := by decide

/-- Claim C6 witness: the amended theorem applied to a concrete author list
and empty link table. -/
theorem c6_witness : ((2 : Nat), (1 : Nat)) ∈ dblp_process_coauthors [1, 2] [] :=
  c6_coauthor_symmetry.1 [1, 2] [] (fun a b h => by cases h) 1 2 (by decide)

theorem splitStage_found (findConf : List Char → Option Nat) (acr : List Char) (sep : Char)
    (c : Nat) (cs : List (List Char)) :
    splitStage findConf acr sep (some c, cs) = (some c, cs) := rfl

theorem probeParts_candidates (findConf : List Char → Option Nat) :
    ∀ (parts cs : List (List Char)) (x : List Char),
      x ∈ (probeParts findConf parts cs).2 →
      x ∈ cs ∨ (x ∈ parts ∧ findConf x = none) := by
  intro parts
  induction parts with
  | nil => intro cs x hx; exact Or.inl hx
  | cons p rest ih =>
    intro cs x hx
    rw [probeParts] at hx
    cases hfc : findConf p with
    | some c =>
      rw [hfc] at hx
      exact Or.inl hx
    | none =>
      rw [hfc] at hx
      rcases ih (addCandidate cs p) x hx with hcs | ⟨hmem, hnone⟩
      · unfold addCandidate at hcs
        split at hcs
        · exact Or.inl hcs
        · simp only [List.mem_append, List.mem_singleton] at hcs
          rcases hcs with hcs | rfl
          · exact Or.inl hcs
          · exact Or.inr ⟨List.mem_cons_self _ _, hfc⟩
      · exact Or.inr ⟨List.mem_cons_of_mem p hmem, hnone⟩

theorem splitStage_candidates (findConf : List Char → Option Nat) (acr : List Char) (sep : Char)
    (st : Option Nat × List (List Char)) :
    ∀ x ∈ (splitStage findConf acr sep st).2, x ∈ st.2 ∨ findConf x = none := by
  intro x hx
  rw [splitStage] at hx
  split at hx
  · exact Or.inl hx
  · split at hx
    · dsimp only at hx
      split at hx
      · rcases probeParts_candidates findConf _ _ x hx with h | ⟨-, h⟩
        · exact Or.inl h
        · exact Or.inr h
      · exact Or.inl hx
    · exact Or.inl hx

/-- Claim C7 (amended): the raw acronym is probed first and a raw match wins
immediately; the `@`, `/`, `-` splits are probed in that order with the first
matching part winning; when nothing matches, a conference with rank
`"Unranked"` is inserted whose acronym is the original acronym when no split
produced parts and otherwise an *arbitrary* element of the collected
non-matching parts (Python `set.pop()`), every collected part having failed
the lookup. -/
theorem c7_conference_fallback :
    ∀ (findConf : List Char → Option Nat) (pick : List (List Char) → List Char) (acr : List Char),
      (∀ cs, cs ≠ [] → pick cs ∈ cs) →
      (∀ c, findConf acr = some c →
        dblp_process_conference findConf pick acr =
          { conf := some c, inserted := none, candidates := [] }) ∧
      (∀ ins, (dblp_process_conference findConf pick acr).inserted = some ins →
        ins.rank = "Unranked" ∧
        (dblp_process_conference findConf pick acr).conf = none ∧
        (ins.acronym = acr ∨
          ins.acronym ∈ (dblp_process_conference findConf pick acr).candidates) ∧
        (∀ x ∈ (dblp_process_conference findConf pick acr).candidates,
          findConf x = none)) := by
  intro findConf pick acr hpick
  constructor
  · intro c hc
    simp only [dblp_process_conference, hc, splitStage_found]
  · intro ins hins
    have hcand : ∀ x ∈ (splitStage findConf acr '-' (splitStage findConf acr '/'
        (splitStage findConf acr '@' (findConf acr, [])))).2, findConf x = none := by
      intro x hx
      rcases splitStage_candidates findConf acr '-' _ x hx with h | h
      · rcases splitStage_candidates findConf acr '/' _ x h with h2 | h2
        · rcases splitStage_candidates findConf acr '@' _ x h2 with h3 | h3
          · simp at h3
          · exact h3
        · exact h2
      · exact h
    simp only [dblp_process_conference] at hins ⊢
    split at hins
    · cases hins
    · rename_i heq
      simp only [heq]
      injection hins with hins2
      subst hins2
      refine ⟨rfl, trivial, ?_, hcand⟩
      by_cases hemp : (splitStage findConf acr '-' (splitStage findConf acr '/'
          (splitStage findConf acr '@' (findConf acr, [])))).2.isEmpty
      · left
        simp [hemp]
      · right
        simp only [List.isEmpty_iff] at hemp
        simp [hemp]
        exact hpick _ hemp

/-- Claim C7 counterexample: for acronym `"A@B"` with no matching conference,
the candidates set is `{"A", "B"}` and `set.pop()` may legally return `"A"`
(modelled by the admissible choice `pickHead`), while the claim requires the
last-split part `"B"`; the inserted acronym is therefore not guaranteed to be
the last-split part. -/
theorem c7_counterexample :
    dblp_process_conference (fun _ => none) pickHead "A@B".toList =
      { conf := none, inserted := some { acronym := "A".toList, rank := "Unranked" },
        candidates := ["A".toList, "B".toList] } ∧
    claimedFallbackAcronym "A@B".toList = "B".toList ∧
    pickHead ["A".toList, "B".toList] ∈ (["A".toList, "B".toList] : List (List Char)) ∧
    "A".toList ≠ "B".toList := by decide

/-- Claim C7 witness: the amended theorem applied to a concrete acronym with
the `pickHead` implementation of `set.pop()`. -/
theorem c7_witness :
    (dblp_process_conference (fun _ => none) pickHead "XYZ".toList).conf = none ∧
    ({ acronym := "XYZ".toList, rank := "Unranked" } : ConfInsert).rank = "Unranked" :=
  have h := (c7_conference_fallback (fun _ => none) pickHead "XYZ".toList
    (fun cs hcs => by
      cases cs with
      | nil => exact absurd rfl hcs
      | cons a t => exact List.mem_cons_self a t)).2
    { acronym := "XYZ".toList, rank := "Unranked" } (by decide)
  ⟨h.2.1, h.1⟩

/-- Claim C8 (amended): only `PublicationAssociationProcessor` looks up
publications by jaro-winkler similarity at threshold 0.87 with the
`LIKE %firstAfterFifth%` prefilter and highest-similarity-first selection
(lowercasing only the probe side); `ScholarPublicationParser` uses exact title
equality with no threshold, and `ScholarAuthorParser._process_publications`
uses `word_similarity` at 0.85 on truncated lowercased titles taking the first
row. -/
theorem c8_title_lookup :
    dblpPublicationTitleLookup.simFn = SimFn.jaroWinkler ∧
    dblpPublicationTitleLookup.threshold = some (mkRat 87 100) ∧
    dblpPublicationTitleLookup.prefilterKind = PrefilterKind.likeContainsFirstAfterFifth ∧
    dblpPublicationTitleLookup.pick = PickRule.highestSimilarityFirst ∧
    dblpPublicationTitleLookup.lowerDbSide = false ∧
    scholarPublicationTitleLookup.simFn = SimFn.exactEquality ∧
    scholarPublicationTitleLookup.threshold = none ∧
    scholarAuthorPublicationsTitleLookup.simFn = SimFn.wordSimilarity ∧
    scholarAuthorPublicationsTitleLookup.threshold = some (mkRat 85 100) ∧
    scholarAuthorPublicationsTitleLookup.pick = PickRule.firstRow := by decide

/-- Claim C8 counterexample: none of the three publication-by-title lookup
shapes equals the shape the claim asserts for all of them; in particular
`ScholarPublicationParser` does not use jaro-winkler at all. -/
theorem c8_counterexample :
    scholarPublicationTitleLookup ≠ claimedPublicationTitleLookup ∧
    scholarAuthorPublicationsTitleLookup ≠ claimedPublicationTitleLookup ∧
    dblpPublicationTitleLookup ≠ claimedPublicationTitleLookup ∧
    scholarPublicationTitleLookup.simFn ≠ SimFn.jaroWinkler := by decide

/-- Claim C9: `first_after_fifth` returns `None` on empty input; on the
spec's example it returns `"pytorch"`; and whenever the word at index `i`
covers character position `len(trim(text)) / 5` of the single-space joining,
the function returns that word, or the next word (None when absent) if the
covering word is shorter than 2 characters. -/
theorem c9_first_after_fifth :
    first_after_fifth [] = none ∧
    first_after_fifth "avalanche: a pytorch library for deep continual learning".toList
      = some "pytorch".toList ∧
    ∀ (text : List Char) (i : Nat) (w : List Char),
      coverIdx ((pyStrip text).length / 5) (pyWords text) 0 = some i →
      (pyWords text).get? i = some w →
      first_after_fifth text =
        if w.length < 2 then (pyWords text).get? (i + 1) else some w := by
  refine ⟨rfl, by rfl, ?_⟩
  intro text i w hcov hget
  have htext : ¬ text.isEmpty := by
    intro h
    cases text with
    | nil => simp [pyWords, pyWordsAux, coverIdx] at hcov
    | cons c cs => simp [List.isEmpty] at h
  rw [first_after_fifth, if_neg (by simpa using htext)]
  exact fafLoop_eq_of_cover _ _ _ _ _ hcov hget

/-- Claim C9 witness: the covering-word case evaluated on the spec's example
(`"a"` covers position 11 and is short, so the next word `"pytorch"` is
returned). -/
theorem c9_witness :
    first_after_fifth "avalanche: a pytorch library for deep continual learning".toList
      = some "pytorch".toList :=
  c9_first_after_fifth.2.1

/-- Claim C10: `process_string` raises `SemicolonFoundException` exactly when
the input contains a semicolon, and otherwise returns the comma split of the
input (whose single-comma joining recovers the input). -/
theorem c10_process_string :
    ∀ input : List Char,
      ((∃ e, process_string input = .error e) ↔ ';' ∈ input) ∧
      (';' ∉ input →
        process_string input = .ok (input.splitOn ',') ∧
        [','].intercalate (input.splitOn ',') = input) := by
  intro input
  constructor
  · constructor
    · rintro ⟨e, he⟩
      by_contra hmem
      rw [process_string, if_neg hmem] at he
      cases he
    · intro hmem
      exact ⟨.semicolonFound, by rw [process_string, if_pos hmem]⟩
  · intro hmem
    refine ⟨by rw [process_string, if_neg hmem], ?_⟩
    exact List.intercalate_splitOn input ','

/-- Claim C10 witness: the theorem applied to a concrete semicolon-free
input. -/
theorem c10_witness :
    process_string "a,b".toList = .ok [['a'], ['b']] :=
  ((c10_process_string "a,b".toList).2 (by decide)).1.trans rfl

end PubPersister
